import Mathlib

set_option maxHeartbeats 1000000

/-! Shallow embedding of the blue/green ECS deployment orchestrator
(templates/gitops-atlantis/scripts/deploy.py) and its pre-deployment
health gate (templates/gitops-atlantis/scripts/check_vault_health.py).

External cloud calls are modelled by passing their observable responses in
as data: the listener description feeding slot classification, the finite
sequence of poll responses observed inside a timeout budget feeding the
two polling loops, and per-call success booleans feeding the orchestrator,
which is embedded as a trace-producing function so that ordering claims
about its cloud calls can be stated over the emitted event list. -/

/-- The two deployment strategies of deploy.py. -/
inductive DeploymentStrategy where
  | direct
  | blue_green
  deriving DecidableEq

/-- DeploymentConfig dataclass of deploy.py, with its source defaults. -/
structure DeploymentConfig where
  cluster_name : String
  service_name : String
  task_definition : String
  strategy : DeploymentStrategy
  environment : String
  blue_tg_arn : Option String := none
  green_tg_arn : Option String := none
  listener_arn : Option String := none
  health_check_url : String := "/healthz"
  timeout_minutes : Nat := 10

/-- One entry of a listener description DefaultActions list. -/
structure ListenerAction where
  type : String
  targetGroupArn : String
  deriving DecidableEq

/-- The action scan inside get_current_target_group: the first forward
action whose target group matches the configured blue or green identifier
decides the slot; no match falls through to the blue default. -/
def findForwardSlot (cfg : DeploymentConfig) : List ListenerAction → String
  | [] => "blue"
  | a :: rest =>
      if a.type = "forward" then
        if some a.targetGroupArn = cfg.blue_tg_arn then "blue"
        else if some a.targetGroupArn = cfg.green_tg_arn then "green"
        else findForwardSlot cfg rest
      else findForwardSlot cfg rest

/-- deploy.py get_current_target_group: main for direct strategy;
otherwise classify from the listener response, with any API error caught
and answered by the blue fallback. -/
def get_current_target_group (cfg : DeploymentConfig)
    (listenerResp : Except String (List ListenerAction)) : String :=
  match cfg.strategy with
  | .direct => "main"
  | .blue_green =>
      match listenerResp with
      | .error _ => "blue"
      | .ok actions => findForwardSlot cfg actions

/-- deploy.py get_inactive_target_group: complement of the current slot. -/
def get_inactive_target_group (current : String) : String :=
  if current = "blue" then "green" else "blue"

/-- The target-group identifier bound to a slot name, as computed at the
top of deploy_blue_green. -/
def slotBinding (cfg : DeploymentConfig) (slot : String) : Option String :=
  if slot = "green" then cfg.green_tg_arn else cfg.blue_tg_arn

/-- Observable cloud calls issued by one orchestration run. -/
inductive Event where
  | updateService (targetGroup : Option String)
  | waitForDeployment
  | waitForHealthyTargets (targetGroup : Option String)
  | switchTraffic (targetGroup : Option String)
  | settleSleep (seconds : Nat)
  deriving DecidableEq

/-- Results the environment returns for each call site of one run. -/
structure Env where
  updateServiceOk : Bool
  waitForDeploymentOk : Bool
  healthyTargetsOk1 : Bool
  switchTrafficOk : Bool
  healthyTargetsOk2 : Bool

/-- deploy.py deploy_direct: update the service with no binding, then
wait for the rollout; early return false on either failure. -/
def deploy_direct (env : Env) : Bool × List Event :=
  if !env.updateServiceOk then
    (false, [Event.updateService none])
  else if !env.waitForDeploymentOk then
    (false, [Event.updateService none, Event.waitForDeployment])
  else
    (true, [Event.updateService none, Event.waitForDeployment])

/-- deploy.py deploy_blue_green: update the inactive slot, wait for the
rollout, probe the inactive target group, switch traffic, settle 60s,
re-probe; each failing step returns false at once. -/
def deploy_blue_green (cfg : DeploymentConfig) (current : String) (env : Env) :
    Bool × List Event :=
  let inactive_target := get_inactive_target_group current
  let inactive_tg_arn := slotBinding cfg inactive_target
  if !env.updateServiceOk then
    (false, [Event.updateService inactive_tg_arn])
  else if !env.waitForDeploymentOk then
    (false, [Event.updateService inactive_tg_arn, Event.waitForDeployment])
  else if !env.healthyTargetsOk1 then
    (false, [Event.updateService inactive_tg_arn, Event.waitForDeployment,
             Event.waitForHealthyTargets inactive_tg_arn])
  else if !env.switchTrafficOk then
    (false, [Event.updateService inactive_tg_arn, Event.waitForDeployment,
             Event.waitForHealthyTargets inactive_tg_arn,
             Event.switchTraffic inactive_tg_arn])
  else if !env.healthyTargetsOk2 then
    (false, [Event.updateService inactive_tg_arn, Event.waitForDeployment,
             Event.waitForHealthyTargets inactive_tg_arn,
             Event.switchTraffic inactive_tg_arn,
             Event.settleSleep 60,
             Event.waitForHealthyTargets inactive_tg_arn])
  else
    (true, [Event.updateService inactive_tg_arn, Event.waitForDeployment,
            Event.waitForHealthyTargets inactive_tg_arn,
            Event.switchTraffic inactive_tg_arn,
            Event.settleSleep 60,
            Event.waitForHealthyTargets inactive_tg_arn])

/-- The orchestrator object: its config and the slot classified once at
construction time. -/
structure Orchestrator where
  config : DeploymentConfig
  current_target : String

/-- VaultDBDeploymentOrchestrator construction: classify the active slot
from the listener response. -/
def mkOrchestrator (cfg : DeploymentConfig)
    (listenerResp : Except String (List ListenerAction)) : Orchestrator :=
  { config := cfg, current_target := get_current_target_group cfg listenerResp }

/-- deploy.py deploy: dispatch on the configured strategy. -/
def deploy (o : Orchestrator) (env : Env) : Bool × List Event :=
  match o.config.strategy with
  | .direct => deploy_direct env
  | .blue_green => deploy_blue_green o.config o.current_target env

/-- Whether a trace contains a traffic-switch call. -/
def hasSwitchCall (tr : List Event) : Bool :=
  tr.any fun e =>
    match e with
    | .switchTraffic _ => true
    | _ => false

/-- The bindings of all service-update calls in a trace, in order. -/
def updateCalls (tr : List Event) : List (Option String) :=
  tr.filterMap fun e =>
    match e with
    | .updateService tg => some tg
    | _ => none

/-- Scan a trace checking that every traffic-switch call is strictly
preceded by a deployment-wait call and a target-health probe call. -/
def switchesProperlyGated (tr : List Event) : Bool :=
  (tr.foldl
    (fun (st : Bool × Bool × Bool) e =>
      match e with
      | .waitForDeployment => (true, st.2.1, st.2.2)
      | .waitForHealthyTargets _ => (st.1, true, st.2.2)
      | .switchTraffic _ => (st.1, st.2.1, st.2.2 && st.1 && st.2.1)
      | _ => st)
    ((false, false, true) : Bool × Bool × Bool)).2.2

/-- One entry of a describe-services deployments list. -/
structure ECSDeployment where
  status : String
  rolloutState : Option String
  deriving DecidableEq

/-- The next-with-default scan of deploy.py wait_for_deployment: the
first deployment whose status is PRIMARY. -/
def findPrimary : List ECSDeployment → Option ECSDeployment
  | [] => none
  | d :: rest => if d.status = "PRIMARY" then some d else findPrimary rest

/-- Whether the primary deployment exists and its rollout state is
COMPLETED. -/
def primaryCompleted (deps : List ECSDeployment) : Bool :=
  match findPrimary deps with
  | some p => p.rolloutState == some "COMPLETED"
  | none => false

/-- The failed-deployments filter of wait_for_deployment. -/
def failedDeployments (deps : List ECSDeployment) : List ECSDeployment :=
  deps.filter fun d => d.status == "FAILED"

/-- deploy.py wait_for_deployment over the finite sequence of poll
responses observed before the timeout elapses: a poll error is logged and
retried; a poll whose primary deployment is COMPLETED returns true; else
a poll listing any FAILED deployment returns false; exhausting the budget
returns false. The COMPLETED test precedes the FAILED test, as in the
source. -/
def wait_for_deployment : List (Except String (List ECSDeployment)) → Bool
  | [] => false
  | .error _ :: rest => wait_for_deployment rest
  | .ok deps :: rest =>
      if primaryCompleted deps then true
      else if !(failedDeployments deps).isEmpty then false
      else wait_for_deployment rest

/-- A deployment poll that triggers neither terminal branch of
wait_for_deployment. -/
def deploymentPollNonTerminal : Except String (List ECSDeployment) → Bool
  | .error _ => true
  | .ok deps => !primaryCompleted deps && (failedDeployments deps).isEmpty

/-- One entry of a describe-target-health response, by its state. -/
structure TargetHealthDescription where
  state : String
  deriving DecidableEq

/-- The healthy-targets filter shared by deploy.py and the health gate. -/
def healthyTargets (ts : List TargetHealthDescription) :
    List TargetHealthDescription :=
  ts.filter fun t => t.state == "healthy"

/-- deploy.py wait_for_healthy_targets over the finite sequence of poll
responses observed before the timeout elapses: a poll error is logged and
retried; a poll listing at least one healthy target returns true at once;
exhausting the budget returns false. -/
def wait_for_healthy_targets :
    List (Except String (List TargetHealthDescription)) → Bool
  | [] => false
  | .error _ :: rest => wait_for_healthy_targets rest
  | .ok targets :: rest =>
      if !(healthyTargets targets).isEmpty then true
      else wait_for_healthy_targets rest

/-- A health poll that does not trigger the early-true branch of
wait_for_healthy_targets. -/
def healthPollNonTerminal :
    Except String (List TargetHealthDescription) → Bool
  | .error _ => true
  | .ok targets => (healthyTargets targets).isEmpty

/-! Health gate (check_vault_health.py). Each check is embedded as a
function of the observable response of the external calls it makes; its
internal try/except blocks become the error branches of those responses. -/

/-- The distinguished request failures of check_atlantis_api. -/
inductive ReqError where
  | timeout
  | connectionError
  | other (msg : String)
  deriving DecidableEq

/-- check_atlantis_api: pass on a 200 status, fail otherwise, with
distinguishing messages per failure kind. -/
def check_atlantis_api (resp : Except ReqError Nat) : Bool × String :=
  match resp with
  | .ok status =>
      if status = 200 then (true, "Atlantis API responding normally")
      else (false, "API returned status " ++ toString status)
  | .error .timeout => (false, "API timeout")
  | .error .connectionError => (false, "Connection failed")
  | .error (.other e) => (false, "API check failed: " ++ e)

/-- One lock record of the lock-registry response. -/
structure TfLock where
  project : Option String
  deriving DecidableEq

/-- The enumerated lock summaries of check_vaultdb_locks. -/
def lockDetails : Nat → List TfLock → List String
  | _, [] => []
  | i, l :: rest =>
      ("Lock " ++ toString (i + 1) ++ ": " ++ l.project.getD "Unknown")
        :: lockDetails (i + 1) rest

/-- check_vaultdb_locks over the registry response (status code and
decoded lock list): active locks fail the check; a non-200 status or a
request error passes it (fail-open). -/
def check_vaultdb_locks (resp : Except String (Nat × List TfLock)) :
    Bool × String :=
  match resp with
  | .error e => (true, "Lock check failed but proceeding: " ++ e)
  | .ok (status, locks) =>
      if status = 200 then
        if locks.isEmpty then (true, "No active locks")
        else (false, "Active locks detected: " ++
          String.intercalate ", " (lockDetails 0 (locks.take 3)))
      else (true, "Locks endpoint unavailable")

/-- One service record of a describe-services response. -/
structure ECSService where
  status : String
  deployments : List ECSDeployment
  desiredCount : Nat
  runningCount : Nat
  deriving DecidableEq

/-- The PRIMARY-or-ACTIVE deployments filter of
check_ecs_service_stability. -/
def activeDeployments (s : ECSService) : List ECSDeployment :=
  s.deployments.filter fun d => d.status == "PRIMARY" || d.status == "ACTIVE"

/-- check_ecs_service_stability: service present, status ACTIVE, exactly
one primary/active deployment with COMPLETED rollout, and desired equals
running; any API error fails the check (fail-closed). -/
def check_ecs_service_stability (resp : Except String (List ECSService)) :
    Bool × String :=
  match resp with
  | .error e => (false, "ECS check failed: " ++ e)
  | .ok [] => (false, "ECS service not found")
  | .ok (service :: _) =>
      if service.status ≠ "ACTIVE" then
        (false, "Service status: " ++ service.status)
      else
        match activeDeployments service with
        | [primary] =>
            if primary.rolloutState ≠ some "COMPLETED" then
              (false, "Deployment state: " ++ primary.rolloutState.getD "None")
            else if service.desiredCount ≠ service.runningCount then
              (false, "Count mismatch: desired=" ++
                toString service.desiredCount ++ ", running=" ++
                toString service.runningCount)
            else (true, "ECS service stable")
        | other => (false, "Multiple active deployments: " ++
            toString other.length)

/-- check_target_group_health over the response pair (number of target
groups found, target health states of the first): needs a target group
and at least one healthy target; any API error fails the check. -/
def check_target_group_health
    (resp : Except String (Nat × List TargetHealthDescription)) :
    Bool × String :=
  match resp with
  | .error e => (false, "Target group check failed: " ++ e)
  | .ok (numTargetGroups, targets) =>
      if numTargetGroups = 0 then (false, "Target group not found")
      else
        let healthy := healthyTargets targets
        if healthy.isEmpty then (false, "No healthy targets")
        else (true, toString healthy.length ++ " healthy targets")

/-- check_vault_backup_status: placeholder with backup availability hard
wired to true. -/
def check_vault_backup_status : Bool × String :=
  let backup_available := true
  if backup_available then (true, "Backup system available")
  else (false, "No backup system")

/-- The local clock reading used by check_deployment_window. -/
structure LocalTime where
  hour : Nat
  weekday : Nat
  deriving DecidableEq

/-- check_deployment_window: in prod, fail outside 09..17 hours, on
Friday (weekday 4) from hour 15, and on weekends (weekday 5 or 6);
elsewhere pass; a failure of the machinery itself passes (fail-open). -/
def check_deployment_window (environment : String)
    (now : Except String LocalTime) : Bool × String :=
  match now with
  | .error e => (true, "Window check failed but proceeding: " ++ e)
  | .ok t =>
      if environment = "prod" then
        if t.hour < 9 ∨ 18 ≤ t.hour then (false, "Outside deployment window")
        else if t.weekday = 4 ∧ 15 ≤ t.hour then
          (false, "Friday afternoon deployment")
        else if 5 ≤ t.weekday then (false, "Weekend deployment")
        else (true, "Safe deployment window")
      else (true, "Safe deployment window")

/-- One per-check record of the gate summary. -/
structure HealthCheckResult where
  check : String
  passed : Bool
  message : String
  deriving DecidableEq

/-- The try/except around one check call in run_comprehensive_check: a
returned pair is kept, an exception becomes a failed result. -/
def checkOutcome (r : Except String (Bool × String)) : Bool × String :=
  match r with
  | .ok pm => pm
  | .error e => (false, "Exception: " ++ e)

/-- The aggregation loop of run_comprehensive_check: every named check is
run, its outcome recorded, and the overall flag conjoined with its pass
flag. -/
def runChecksLoop :
    List (String × Except String (Bool × String)) → Bool →
      List HealthCheckResult → Bool × List HealthCheckResult
  | [], allPassed, results => (allPassed, results)
  | (name, outcome) :: rest, allPassed, results =>
      let pm := checkOutcome outcome
      runChecksLoop rest (allPassed && pm.1) (results ++ [⟨name, pm.1, pm.2⟩])

/-- The observable responses of every external call the six checks make
in one gate run. -/
structure HealthWorld where
  atlantisResp : Except ReqError Nat
  locksResp : Except String (Nat × List TfLock)
  ecsResp : Except String (List ECSService)
  tgResp : Except String (Nat × List TargetHealthDescription)
  nowResp : Except String LocalTime
  environment : String

/-- run_comprehensive_check: the six named checks in source order, fed
through the aggregation loop. -/
def run_comprehensive_check (w : HealthWorld) :
    Bool × List HealthCheckResult :=
  runChecksLoop
    [("Atlantis API", Except.ok (check_atlantis_api w.atlantisResp)),
     ("VaultDB Locks", Except.ok (check_vaultdb_locks w.locksResp)),
     ("ECS Service", Except.ok (check_ecs_service_stability w.ecsResp)),
     ("Target Groups", Except.ok (check_target_group_health w.tgResp)),
     ("Backup Status", Except.ok check_vault_backup_status),
     ("Deployment Window",
       Except.ok (check_deployment_window w.environment w.nowResp))]
    true []

/-- A fully-specified blue/green configuration used for witnesses. -/
def cfgBG : DeploymentConfig :=
  ⟨"cluster", "service", "task", .blue_green, "prod",
    some "blue-arn", some "green-arn", some "listener-arn", "/healthz", 10⟩

/-- A direct-strategy configuration used for witnesses. -/
def cfgDirect : DeploymentConfig :=
  ⟨"cluster", "service", "task", .direct, "dev",
    none, none, none, "/healthz", 10⟩

/-- A blue/green configuration with all three identifiers absent. -/
def cfgMissing : DeploymentConfig :=
  ⟨"cluster", "service", "task", .blue_green, "prod",
    none, none, none, "/healthz", 10⟩

/-- An environment in which every collaborator call succeeds. -/
def envAllOk : Env := ⟨true, true, true, true, true⟩

/-- A gate run in which the lock registry is unreachable and the window
machinery errors while every fail-closed check passes. -/
def worldFailOpen : HealthWorld :=
  ⟨Except.ok 200,
   Except.error "connection refused",
   Except.ok [⟨"ACTIVE", [⟨"PRIMARY", some "COMPLETED"⟩], 1, 1⟩],
   Except.ok (1, [⟨"healthy"⟩]),
   Except.error "clock error",
   "prod"⟩

/-- An environment in which the deployment watcher reports failure. -/
def envWatcherFail : Env := ⟨true, false, true, true, true⟩

/-- Claim C1: in every blue/green orchestration run, any traffic-switch
call in the trace is strictly preceded by the deployment wait and the
target-health probe; a switch call occurs only when the watcher and the
probe reported success; and when the watcher reports failure or timeout,
no switch call is issued and the run outcome is failure. -/
theorem bluegreen_switch_gated_by_watcher_and_probe
    (cfg : DeploymentConfig) (resp : Except String (List ListenerAction))
    (env : Env) (h : cfg.strategy = DeploymentStrategy.blue_green) :
    switchesProperlyGated (deploy (mkOrchestrator cfg resp) env).2 = true ∧
    (hasSwitchCall (deploy (mkOrchestrator cfg resp) env).2 = true →
      env.waitForDeploymentOk = true ∧ env.healthyTargetsOk1 = true) ∧
    (env.waitForDeploymentOk = false →
      hasSwitchCall (deploy (mkOrchestrator cfg resp) env).2 = false ∧
      (deploy (mkOrchestrator cfg resp) env).1 = false) := by
  obtain ⟨u, w, h1, s, h2⟩ := env
  simp only [deploy, mkOrchestrator, h]
  cases u <;> cases w <;> cases h1 <;> cases s <;> cases h2 <;>
    simp [deploy_blue_green, hasSwitchCall, switchesProperlyGated]

/-- Witness for C1 at a concrete configuration and a failing watcher. -/
theorem bluegreen_switch_gated_witness :
    hasSwitchCall (deploy (mkOrchestrator cfgBG (Except.ok [])) envWatcherFail).2
        = false ∧
    (deploy (mkOrchestrator cfgBG (Except.ok [])) envWatcherFail).1 = false :=
  (bluegreen_switch_gated_by_watcher_and_probe cfgBG (Except.ok [])
    envWatcherFail rfl).2.2 rfl

/-- Claim C2: every blue/green run issues exactly one service-update
call, bound to the slot complementary to the one classified active at
construction, and that complement always differs from the active slot. -/
theorem bluegreen_updates_inactive_slot
    (cfg : DeploymentConfig) (resp : Except String (List ListenerAction))
    (env : Env) (h : cfg.strategy = DeploymentStrategy.blue_green) :
    updateCalls (deploy (mkOrchestrator cfg resp) env).2 =
      [slotBinding cfg
        (get_inactive_target_group (get_current_target_group cfg resp))] ∧
    get_inactive_target_group (get_current_target_group cfg resp) ≠
      get_current_target_group cfg resp := by
  constructor
  · obtain ⟨u, w, h1, s, h2⟩ := env
    simp only [deploy, mkOrchestrator, h]
    cases u <;> cases w <;> cases h1 <;> cases s <;> cases h2 <;>
      simp [deploy_blue_green, updateCalls]
  · unfold get_inactive_target_group
    by_cases hc : get_current_target_group cfg resp = "blue" <;> simp [hc]
    intro hcontra
    exact hc hcontra.symm

/-- Witness for C2 at a concrete configuration with the listener
forwarding to the blue target group. -/
theorem bluegreen_updates_inactive_slot_witness :
    updateCalls (deploy (mkOrchestrator cfgBG
        (Except.ok [⟨"forward", "blue-arn"⟩])) envAllOk).2 =
      [slotBinding cfgBG
        (get_inactive_target_group (get_current_target_group cfgBG
          (Except.ok [⟨"forward", "blue-arn"⟩])))] :=
  (bluegreen_updates_inactive_slot cfgBG
    (Except.ok [⟨"forward", "blue-arn"⟩]) envAllOk rfl).1

/-- Claim C3: a direct-strategy run never issues a traffic-switch call;
its trace is the service update alone or the update followed by the
rollout wait. -/
theorem direct_strategy_never_switches
    (cfg : DeploymentConfig) (resp : Except String (List ListenerAction))
    (env : Env) (h : cfg.strategy = DeploymentStrategy.direct) :
    hasSwitchCall (deploy (mkOrchestrator cfg resp) env).2 = false ∧
    ((deploy (mkOrchestrator cfg resp) env).2 = [Event.updateService none] ∨
     (deploy (mkOrchestrator cfg resp) env).2 =
       [Event.updateService none, Event.waitForDeployment]) := by
  obtain ⟨u, w, h1, s, h2⟩ := env
  simp only [deploy, mkOrchestrator, h]
  cases u <;> cases w <;> simp [deploy_direct, hasSwitchCall]

/-- Witness for C3 at a concrete direct configuration. -/
theorem direct_strategy_never_switches_witness :
    hasSwitchCall (deploy (mkOrchestrator cfgDirect (Except.ok [])) envAllOk).2
      = false :=
  (direct_strategy_never_switches cfgDirect (Except.ok []) envAllOk rfl).1

/-- Every all-non-terminal poll sequence exhausts the watcher budget. -/
lemma wait_for_deployment_of_nonterminal
    (polls : List (Except String (List ECSDeployment)))
    (h : ∀ p ∈ polls, deploymentPollNonTerminal p = true) :
    wait_for_deployment polls = false := by
  induction polls with
  | nil => rfl
  | cons p rest ih =>
      have hp := h p (List.mem_cons_self p rest)
      have hrest := fun q hq => h q (List.mem_cons_of_mem p hq)
      cases p with
      | error e => simpa [wait_for_deployment] using ih hrest
      | ok deps =>
          simp only [deploymentPollNonTerminal, Bool.and_eq_true,
            Bool.not_eq_true'] at hp
          simp [wait_for_deployment, hp.1, hp.2, ih hrest]

/-- Every all-non-terminal poll sequence exhausts the probe budget. -/
lemma wait_for_healthy_of_nonterminal
    (polls : List (Except String (List TargetHealthDescription)))
    (h : ∀ p ∈ polls, healthPollNonTerminal p = true) :
    wait_for_healthy_targets polls = false := by
  induction polls with
  | nil => rfl
  | cons p rest ih =>
      have hp := h p (List.mem_cons_self p rest)
      have hrest := fun q hq => h q (List.mem_cons_of_mem p hq)
      cases p with
      | error e => simpa [wait_for_healthy_targets] using ih hrest
      | ok targets =>
          simp only [healthPollNonTerminal] at hp
          simp [wait_for_healthy_targets, hp, ih hrest]

/-- Counterexample to claim C7 as stated: a first poll in which one
deployment reports status FAILED while the primary deployment already
reports rollout state COMPLETED makes the watcher return success, not
failure, though a deployment reported failed with the whole timeout
budget remaining. -/
theorem watcher_failed_not_failfast_counterexample :
    ("FAILED" ∈
      (([⟨"PRIMARY", some "COMPLETED"⟩, ⟨"FAILED", none⟩] :
        List ECSDeployment).map ECSDeployment.status)) ∧
    wait_for_deployment
      [Except.ok [⟨"PRIMARY", some "COMPLETED"⟩, ⟨"FAILED", none⟩]] = true := by
  constructor
  · simp
  · rfl

/-- Claim C7 amended: the watcher returns failure as soon as a poll lists
a FAILED deployment, regardless of the remaining budget, unless that same
poll already shows the primary rollout COMPLETED, in which case success
takes precedence; it returns success as soon as the primary rollout is
COMPLETED; poll errors are retried rather than fatal; and an exhausted
budget returns failure. -/
theorem watcher_semantics_amended
    (deps : List ECSDeployment)
    (rest polls : List (Except String (List ECSDeployment))) (e : String) :
    ((failedDeployments deps).isEmpty = false →
      primaryCompleted deps = false →
      wait_for_deployment (Except.ok deps :: rest) = false) ∧
    (primaryCompleted deps = true →
      wait_for_deployment (Except.ok deps :: rest) = true) ∧
    wait_for_deployment (Except.error e :: rest) = wait_for_deployment rest ∧
    ((∀ p ∈ polls, deploymentPollNonTerminal p = true) →
      wait_for_deployment polls = false) := by
  refine ⟨?_, ?_, rfl, wait_for_deployment_of_nonterminal polls⟩
  · intro hf hnd
    simp [wait_for_deployment, hnd, hf]
  · intro hd
    simp [wait_for_deployment, hd]

/-- Witness for the amended C7: a lone FAILED deployment fails the run
at once even with further successful polls pending, and a lone poll
error followed by nothing times out to failure. -/
theorem watcher_semantics_amended_witness :
    wait_for_deployment
      [Except.ok [⟨"FAILED", none⟩],
       Except.ok [⟨"PRIMARY", some "COMPLETED"⟩]] = false ∧
    wait_for_deployment [Except.error "throttled"] = false := by
  constructor
  · exact (watcher_semantics_amended [⟨"FAILED", none⟩]
      [Except.ok [⟨"PRIMARY", some "COMPLETED"⟩]] [] "x").1 (by decide) (by decide)
  · exact (watcher_semantics_amended [] [] [Except.error "throttled"] "x").2.2.2
      (by decide)

/-- Claim C8: the probe returns true as soon as one poll lists a healthy
target, regardless of the remaining budget; a sequence of polls none of
which lists a healthy target returns false at budget exhaustion; and a
poll error is skipped rather than fatal. -/
theorem probe_early_exit_and_timeout
    (targets : List TargetHealthDescription)
    (rest polls : List (Except String (List TargetHealthDescription)))
    (e : String) :
    ((healthyTargets targets).isEmpty = false →
      wait_for_healthy_targets (Except.ok targets :: rest) = true) ∧
    ((∀ p ∈ polls, healthPollNonTerminal p = true) →
      wait_for_healthy_targets polls = false) ∧
    wait_for_healthy_targets (Except.error e :: rest) =
      wait_for_healthy_targets rest := by
  refine ⟨?_, wait_for_healthy_of_nonterminal polls, rfl⟩
  intro hh
  simp [wait_for_healthy_targets, hh]

/-- Witness for C8: one healthy target answers true at once; unhealthy
and error polls alone answer false. -/
theorem probe_early_exit_and_timeout_witness :
    wait_for_healthy_targets
      [Except.ok [⟨"healthy"⟩], Except.error "later"] = true ∧
    wait_for_healthy_targets
      [Except.error "throttled", Except.ok [⟨"unhealthy"⟩]] = false :=
  ⟨(probe_early_exit_and_timeout [⟨"healthy"⟩] [Except.error "later"] [] "x").1
      (by decide),
   (probe_early_exit_and_timeout [] []
      [Except.error "throttled", Except.ok [⟨"unhealthy"⟩]] "x").2.1
      (by decide)⟩

/-- The action scan only ever answers blue or green. -/
lemma findForwardSlot_total (cfg : DeploymentConfig)
    (actions : List ListenerAction) :
    findForwardSlot cfg actions = "blue" ∨
    findForwardSlot cfg actions = "green" := by
  induction actions with
  | nil => exact Or.inl rfl
  | cons a rest ih =>
      simp only [findForwardSlot]
      by_cases ht : a.type = "forward"
      · rw [if_pos ht]
        by_cases hb : some a.targetGroupArn = cfg.blue_tg_arn
        · rw [if_pos hb]
          exact Or.inl rfl
        · rw [if_neg hb]
          by_cases hg : some a.targetGroupArn = cfg.green_tg_arn
          · rw [if_pos hg]
            exact Or.inr rfl
          · rw [if_neg hg]
            exact ih
      · rw [if_neg ht]
        exact ih

/-- Claim C10: when, under blue/green strategy, the single default
forward action references a target group equal to neither configured
identifier, classification returns blue, the same value as on an API
error, with no error surfaced; and classification is always one of blue,
green, or main. -/
theorem slot_classification_fallback_blue
    (cfg : DeploymentConfig) (a : ListenerAction) (e : String)
    (hs : cfg.strategy = DeploymentStrategy.blue_green)
    (ht : a.type = "forward")
    (hb : some a.targetGroupArn ≠ cfg.blue_tg_arn)
    (hg : some a.targetGroupArn ≠ cfg.green_tg_arn) :
    get_current_target_group cfg (Except.ok [a]) = "blue" ∧
    get_current_target_group cfg (Except.ok [a]) =
      get_current_target_group cfg (Except.error e) ∧
    (∀ (cfg2 : DeploymentConfig)
       (resp : Except String (List ListenerAction)),
      get_current_target_group cfg2 resp = "blue" ∨
      get_current_target_group cfg2 resp = "green" ∨
      get_current_target_group cfg2 resp = "main") := by
  refine ⟨?_, ?_, ?_⟩
  · simp [get_current_target_group, hs, findForwardSlot, ht, hb, hg]
  · simp [get_current_target_group, hs, findForwardSlot, ht, hb, hg]
  · intro cfg2 resp
    unfold get_current_target_group
    cases h2 : cfg2.strategy with
    | direct => simp
    | blue_green =>
        cases resp with
        | error e2 => simp
        | ok actions =>
            rcases findForwardSlot_total cfg2 actions with h | h <;> simp [h]

/-- Witness for C10: a forward action to an unconfigured target group is
classified blue for the concrete blue/green configuration. -/
theorem slot_classification_fallback_blue_witness :
    get_current_target_group cfgBG
      (Except.ok [⟨"forward", "stray-arn"⟩]) = "blue" :=
  (slot_classification_fallback_blue cfgBG ⟨"forward", "stray-arn"⟩ "err"
    rfl rfl (by decide) (by decide)).1

/-- Counterexample to claim C9 as stated: under blue_green strategy with
all three identifiers absent, the orchestrator raises no configuration
error — construction falls back to slot blue after the listener query
error and the run proceeds to issue cloud API calls, here completing
successfully, with the service update carrying an empty binding. -/
theorem missing_config_no_failfast_counterexample :
    cfgMissing.strategy = DeploymentStrategy.blue_green ∧
    cfgMissing.blue_tg_arn = none ∧
    cfgMissing.green_tg_arn = none ∧
    cfgMissing.listener_arn = none ∧
    (deploy (mkOrchestrator cfgMissing
      (Except.error "ParamValidationError")) envAllOk).1 = true ∧
    Event.updateService none ∈
      (deploy (mkOrchestrator cfgMissing
        (Except.error "ParamValidationError")) envAllOk).2 := by
  refine ⟨rfl, rfl, rfl, rfl, rfl, ?_⟩
  decide

/-- Claim C9 amended: under blue_green strategy with the blue and green
identifiers absent and the listener query failing, the orchestrator does
not fail fast with a configuration error: classification falls back to
blue and the run proceeds, issuing exactly one service-update cloud call
whose binding is the absent (none) identifier. -/
theorem missing_config_run_proceeds
    (cfg : DeploymentConfig) (e : String) (env : Env)
    (hs : cfg.strategy = DeploymentStrategy.blue_green)
    (hb : cfg.blue_tg_arn = none) (hg : cfg.green_tg_arn = none) :
    get_current_target_group cfg (Except.error e) = "blue" ∧
    updateCalls (deploy (mkOrchestrator cfg (Except.error e)) env).2 =
      [none] := by
  have hclass : get_current_target_group cfg (Except.error e) = "blue" := by
    simp [get_current_target_group, hs]
  refine ⟨hclass, ?_⟩
  obtain ⟨u, w, h1, s, h2⟩ := env
  simp only [deploy, mkOrchestrator, hs, hclass]
  cases u <;> cases w <;> cases h1 <;> cases s <;> cases h2 <;>
    simp [deploy_blue_green, updateCalls, get_inactive_target_group,
      slotBinding, hg]

/-- Witness for the amended C9 at the concrete identifier-free
configuration. -/
theorem missing_config_run_proceeds_witness :
    get_current_target_group cfgMissing
      (Except.error "ParamValidationError") = "blue" ∧
    updateCalls (deploy (mkOrchestrator cfgMissing
      (Except.error "ParamValidationError")) envAllOk).2 = [none] :=
  missing_config_run_proceeds cfgMissing "ParamValidationError" envAllOk
    rfl rfl rfl

/-- Claim C4: the gate loop runs all six named checks, records an
exception in any one of them as that check failing without aborting the
rest, and its overall flag is the conjunction of the six pass flags; in
particular the deployed gate over the six concrete checks is that
conjunction. -/
theorem health_gate_conjunction_and_isolation
    (n1 n2 n3 n4 n5 n6 : String)
    (c1 c2 c3 c4 c5 c6 : Except String (Bool × String))
    (w : HealthWorld) :
    runChecksLoop
        [(n1, c1), (n2, c2), (n3, c3), (n4, c4), (n5, c5), (n6, c6)]
        true [] =
      ((checkOutcome c1).1 && ((checkOutcome c2).1 && ((checkOutcome c3).1 &&
        ((checkOutcome c4).1 && ((checkOutcome c5).1 &&
          (checkOutcome c6).1)))),
       [⟨n1, (checkOutcome c1).1, (checkOutcome c1).2⟩,
        ⟨n2, (checkOutcome c2).1, (checkOutcome c2).2⟩,
        ⟨n3, (checkOutcome c3).1, (checkOutcome c3).2⟩,
        ⟨n4, (checkOutcome c4).1, (checkOutcome c4).2⟩,
        ⟨n5, (checkOutcome c5).1, (checkOutcome c5).2⟩,
        ⟨n6, (checkOutcome c6).1, (checkOutcome c6).2⟩]) ∧
    (run_comprehensive_check w).1 =
      ((check_atlantis_api w.atlantisResp).1 &&
       ((check_vaultdb_locks w.locksResp).1 &&
        ((check_ecs_service_stability w.ecsResp).1 &&
         ((check_target_group_health w.tgResp).1 &&
          (check_vault_backup_status.1 &&
           (check_deployment_window w.environment w.nowResp).1))))) := by
  constructor
  · simp [runChecksLoop, Bool.and_assoc]
  · simp [run_comprehensive_check, runChecksLoop, checkOutcome,
      Bool.and_assoc]

/-- Claim C5: an unreachable lock registry (request error or non-200
status) passes the lock check; an erroring window machinery passes the
window check; and a gate run with both conditions has its overall result
decided by the four remaining checks alone. -/
theorem health_gate_fail_open_checks
    (w : HealthWorld) (e1 e2 : String) (status : Nat) (locks : List TfLock)
    (hs : status ≠ 200)
    (hl : w.locksResp = Except.error e1 ∨
      w.locksResp = Except.ok (status, locks))
    (hw : w.nowResp = Except.error e2) :
    (check_vaultdb_locks (Except.error e1)).1 = true ∧
    (check_vaultdb_locks (Except.ok (status, locks))).1 = true ∧
    (check_deployment_window w.environment (Except.error e2)).1 = true ∧
    (run_comprehensive_check w).1 =
      ((check_atlantis_api w.atlantisResp).1 &&
       ((check_ecs_service_stability w.ecsResp).1 &&
        ((check_target_group_health w.tgResp).1 &&
         check_vault_backup_status.1))) := by
  have hlock : (check_vaultdb_locks w.locksResp).1 = true := by
    rcases hl with h | h <;> rw [h] <;> simp [check_vaultdb_locks, hs]
  have hwin : (check_deployment_window w.environment w.nowResp).1 = true := by
    rw [hw]
    simp [check_deployment_window]
  refine ⟨by simp [check_vaultdb_locks],
    by simp [check_vaultdb_locks, hs],
    by simp [check_deployment_window], ?_⟩
  simp [run_comprehensive_check, runChecksLoop, checkOutcome, hlock, hwin,
    Bool.and_assoc]

/-- Witness for C5 at a concrete gate run with the registry refusing
connections and the clock erroring. -/
theorem health_gate_fail_open_checks_witness :
    (check_vaultdb_locks (Except.error "connection refused")).1 = true ∧
    (check_deployment_window "prod" (Except.error "clock error")).1 = true ∧
    (run_comprehensive_check worldFailOpen).1 =
      ((check_atlantis_api worldFailOpen.atlantisResp).1 &&
       ((check_ecs_service_stability worldFailOpen.ecsResp).1 &&
        ((check_target_group_health worldFailOpen.tgResp).1 &&
         check_vault_backup_status.1))) :=
  have h := health_gate_fail_open_checks worldFailOpen "connection refused"
    "clock error" 503 [] (by decide) (Or.inl rfl) rfl
  ⟨h.1, h.2.2.1, h.2.2.2⟩

/-- Claim C6: in the prod environment the window check fails exactly when
the hour is before 9 or at or after 18, or it is Friday at or after hour
15, or a weekend day; in any other environment it always passes. -/
theorem deployment_window_policy
    (t : LocalTime) (env : String) (now : Except String LocalTime)
    (h : env ≠ "prod") :
    ((check_deployment_window "prod" (Except.ok t)).1 = false ↔
      ((t.hour < 9 ∨ 18 ≤ t.hour) ∨
       ((t.weekday = 4 ∧ 15 ≤ t.hour) ∨ 5 ≤ t.weekday))) ∧
    (check_deployment_window env now).1 = true := by
  constructor
  · simp only [check_deployment_window, if_pos rfl]
    by_cases h1 : t.hour < 9 ∨ 18 ≤ t.hour
    · simp [h1]
    · by_cases h2 : t.weekday = 4 ∧ 15 ≤ t.hour
      · simp [h1, h2]
      · by_cases h3 : 5 ≤ t.weekday
        · simp [h1, h2, h3]
        · simp [h1, h2, h3]
  · cases now with
    | error e => simp [check_deployment_window]
    | ok t2 => simp [check_deployment_window, h]

/-- Witness for C6: hour 20 on a Tuesday fails the prod window; hour 10
on a Monday passes the dev window. -/
theorem deployment_window_policy_witness :
    (check_deployment_window "prod" (Except.ok ⟨20, 2⟩)).1 = false ∧
    (check_deployment_window "dev" (Except.ok ⟨10, 0⟩)).1 = true :=
  have h := deployment_window_policy ⟨20, 2⟩ "dev" (Except.ok ⟨10, 0⟩)
    (by decide)
  ⟨h.1.mpr (Or.inl (Or.inr (by decide))), h.2⟩
